import Mathlib

/-!
# Verification of the natural-language-to-SQL Flask application (`app.py`)

Shallow embedding of the request pipeline of the repository's single source
file `app.py`: schema introspection (`get_table_schemas`), prompt
construction and translation (`generate_sql`), SQL execution
(`execute_query`), and the four HTTP handlers (`query`, `execute`,
`download`, `schema_info`).

External collaborators — the PostgreSQL driver, the catalog query, and the
Gemini client — are passed in as explicit oracle parameters of type
`Except`, so that each handler's own control flow (the code under
verification) is embedded faithfully while the collaborator's outcome
stays universally quantified.
-/

namespace AgentPG

/-- A scalar cell value of a query result: string, number, boolean or null
(the JSON-serializable scalars produced by the driver). -/
inductive Value where
  | str (s : String)
  | int (n : Int)
  | bool (b : Bool)
  | null
deriving Repr, DecidableEq

/-- The natural text form of a value, as Python's `str` renders it when
pandas writes a CSV cell; a null (`None`/`NaN`) is written as the empty
cell (`to_csv` default `na_rep`). -/
def Value.text : Value → String
  | .str s => s
  | .int n => toString n
  | .bool b => if b then "True" else "False"
  | .null => ""

/-- A materialized result set as the pandas DataFrame holds it: a column
list and rows of cells aligned with the columns. -/
structure DataFrame where
  columns : List String
  rows : List (List Value)
deriving Repr, DecidableEq

/-- `df.to_dict('records')`: one mapping per row, binding each column name
to that row's cell. -/
def DataFrame.toRecords (df : DataFrame) : List (List (String × Value)) :=
  df.rows.map (fun r => df.columns.zip r)

/-- The dictionary `execute_query` builds for JSON serialization:
`{"columns": df.columns.tolist(), "data": df.to_dict('records')}`. -/
structure TabularResult where
  columns : List String
  data : List (List (String × Value))
deriving Repr, DecidableEq

/-- `execute_query(sql_query)` from `app.py`: runs the SQL through the
driver (`pd.read_sql_query` over a psycopg2 connection, modelled by the
`db` oracle) and returns `(results, None)` on success or
`(None, "Error executing query: " + str(e))` when the driver raises. -/
def execute_query (db : String → Except String DataFrame) (sql_query : String) :
    Option TabularResult × Option String :=
  match db sql_query with
  | .ok df => (some ⟨df.columns, df.toRecords⟩, none)
  | .error e => (none, some ("Error executing query: " ++ e))

/-- One step of the grouping loop of `get_table_schemas`: append a
formatted column descriptor to its table's entry, creating the entry at
the end on first sight (Python dict insertion order). -/
def insertCol (acc : List (String × List String)) (t : String) (c : String) :
    List (String × List String) :=
  match acc with
  | [] => [(t, [c])]
  | (t', cs) :: rest =>
      if t' = t then (t', cs ++ [c]) :: rest else (t', cs) :: insertCol rest t c

/-- The grouping loop body of `get_table_schemas` over the catalog rows
`(table_name, column_name, data_type)`. -/
def groupRows (rows : List (String × String × String)) : List (String × List String) :=
  rows.foldl (fun acc r => insertCol acc r.1 (r.2.1 ++ " (" ++ r.2.2 ++ ")")) []

/-- `get_table_schemas()` from `app.py`: queries
`information_schema.columns` for the `public` schema (the `catalog`
oracle) and groups `column (type)` descriptors by table; any exception is
caught and the empty mapping is returned. -/
def get_table_schemas (catalog : Except String (List (String × String × String))) :
    List (String × List String) :=
  match catalog with
  | .ok rows => groupRows rows
  | .error _ => []

/-- `schema_text` in `generate_sql`:
`"\n".join(f"Table {table}: {', '.join(columns)}" ...)`. -/
def schemaTextOf (schema_info : List (String × List String)) : String :=
  String.intercalate "\n"
    (schema_info.map (fun p => "Table " ++ p.1 ++ ": " ++ String.intercalate ", " p.2))

/-- Template text of the Gemini prompt before the schema block (the
triple-quoted f-string in `generate_sql`, whitespace preserved). -/
def promptPre : String :=
  "\n            Based on the following database schema:\n            "

/-- Template text between the schema block and the question. -/
def promptMid : String :=
  "\n            Convert this natural language query into an SQL query for a PostgreSQL database: "

/-- Template text after the question. -/
def promptPost : String :=
  "\n            Return as plaintext, query only, with no markdown formatting.\n            "

/-- The full `contents` f-string of `generate_sql`, interpolating the
rendered schema block and the verbatim question. -/
def promptFor (schema_text user_query : String) : String :=
  promptPre ++ schema_text ++ promptMid ++ user_query ++ promptPost

/-- `generate_sql(user_query)` from `app.py`: fetches the schema, builds
the prompt, calls the model (the `llm` oracle standing for
`client.models.generate_content(...).text`) and returns `(text, None)` on
success or `(None, "Error generating SQL: " + str(e))` on any exception. -/
def generate_sql (llm : String → Except String String)
    (catalog : Except String (List (String × String × String)))
    (user_query : String) : Option String × Option String :=
  let schema_info := get_table_schemas catalog
  let prompt := promptFor (schemaTextOf schema_info) user_query
  match llm prompt with
  | .ok t => (some t, none)
  | .error e => (none, some ("Error generating SQL: " ++ e))

/-! ## The HTTP surface -/

/-- A JSON value occurring in one of the handlers' responses. -/
inductive JVal where
  | s (v : String)
  | null
  | table (t : TabularResult)
  | tableList (ts : List (String × List String))
deriving Repr, DecidableEq

/-- A form-encoded POST body: ordered field/value pairs. -/
abbrev Form := List (String × String)

/-- A failure raised out of a handler before it produces a response; Flask
turns the `KeyError` of a missing `request.form[...]` lookup into a
framework-level 400, never into the handlers' structured JSON error. -/
inductive FrameworkError where
  | keyError (field : String)
deriving Repr, DecidableEq

/-- `request.form[k]`: the value when present, a `KeyError` otherwise. -/
def requireField (form : Form) (k : String) : Except FrameworkError String :=
  match form.lookup k with
  | some v => .ok v
  | none => .error (.keyError k)

/-- `df = pd.DataFrame(results['data'])` in `download`: column order is
the first-appearance order of record keys; absent keys fill with null. -/
def insKey (acc : List String) (k : String) : List String :=
  if acc.contains k then acc else acc ++ [k]

/-- Accumulate the keys of one record into the seen-key list. -/
def addKeys (acc : List String) (ks : List String) : List String :=
  ks.foldl insKey acc

/-- First-appearance order of all keys across the records. -/
def recordKeys (recs : List (List (String × Value))) : List String :=
  recs.foldl (fun acc r => addKeys acc (r.map Prod.fst)) []

/-- `pd.DataFrame(records)`: derive columns from the records' keys and
align every row with them (missing keys become null/NaN). -/
def DataFrame.ofRecords (recs : List (List (String × Value))) : DataFrame :=
  let cols := recordKeys recs
  ⟨cols, recs.map (fun r => cols.map (fun c => (r.lookup c).getD Value.null))⟩

/-! ## CSV serialization (`df.to_csv(path, index=False)`)

pandas writes the header row followed by one line per row, comma
separated, `"\n"` terminated, minimal quoting: a cell is quoted exactly
when it contains a comma, a double quote, or a line break, and an embedded
double quote is doubled. Cells are the values' natural text forms with
null as the empty cell. -/

/-- Double every embedded double-quote character. -/
def escQ : List Char → List Char
  | [] => []
  | c :: cs => if c = '"' then '"' :: '"' :: escQ cs else c :: escQ cs

/-- Minimal quoting: a cell needs quotes iff it contains a separator, a
quote, or a line break. -/
def needsQuoteCh (s : List Char) : Bool :=
  s.any (fun c => c = ',' || c = '"' || c = '\n' || c = '\r')

/-- Render one cell, quoting when needed. -/
def renderFieldCh (s : List Char) : List Char :=
  if needsQuoteCh s then '"' :: (escQ s ++ ['"']) else s

/-- Render one record as a comma-separated line (without terminator). -/
def csvLineCh : List (List Char) → List Char
  | [] => []
  | [c] => renderFieldCh c
  | c :: cs => renderFieldCh c ++ ',' :: csvLineCh cs

/-- Render all records, each terminated by a newline. -/
def writeRowsCh (rows : List (List (List Char))) : List Char :=
  match rows with
  | [] => []
  | r :: rs => (csvLineCh r ++ ['\n']) ++ writeRowsCh rs

/-- `df.to_csv(file_path, index=False)`: header row of the columns, then
the rows with every cell in its natural text form. -/
def DataFrame.toCsv (df : DataFrame) : String :=
  String.mk (writeRowsCh
    ((df.columns.map String.data) ::
      df.rows.map (fun r => r.map (fun v => (Value.text v).data))))

/-! ## CSV parsing (the spec's "when parsed back") -/

/-- Parse the body of a quoted cell after its opening quote: a doubled
quote is an embedded quote, a single quote terminates the cell. -/
def parseQuoted : List Char → List Char × List Char
  | [] => ([], [])
  | c :: rest =>
      if c = '"' then
        match rest with
        | [] => ([], [])
        | c2 :: rest2 =>
            if c2 = '"' then
              let p := parseQuoted rest2
              ('"' :: p.1, p.2)
            else ([], rest)
      else
        let p := parseQuoted rest
        (c :: p.1, p.2)

/-- Parse an unquoted cell: everything up to a separator or newline. -/
def parseUnquoted : List Char → List Char × List Char
  | [] => ([], [])
  | c :: rest =>
      if c = ',' ∨ c = '\n' then ([], c :: rest)
      else
        let p := parseUnquoted rest
        (c :: p.1, p.2)

/-- Parse one cell, quoted or not. -/
def parseFieldCh : List Char → List Char × List Char
  | [] => ([], [])
  | c :: rest => if c = '"' then parseQuoted rest else parseUnquoted (c :: rest)

/-- Parse up to `fuel` cells of one record, consuming the terminating
newline when present (the record's cell count is bounded by the input
length, since each separator takes a character). -/
def parseRecordAux : Nat → List Char → List (List Char) × List Char
  | 0, cs => ([], cs)
  | fuel + 1, cs =>
      let p := parseFieldCh cs
      match p.2 with
      | ',' :: rest =>
          let q := parseRecordAux fuel rest
          (p.1 :: q.1, q.2)
      | '\n' :: rest => ([p.1], rest)
      | r => ([p.1], r)

/-- Parse one record up to and including its terminating newline (or the
end of input). -/
def parseRecord (cs : List Char) : List (List Char) × List Char :=
  parseRecordAux cs.length cs

/-- Parse up to `fuel` records. -/
def parseCsvAux : Nat → List Char → List (List (List Char))
  | _, [] => []
  | 0, _ :: _ => []
  | fuel + 1, c :: cs =>
      let p := parseRecord (c :: cs)
      p.1 :: parseCsvAux fuel p.2

/-- Parse a whole CSV text into records of cells (the input's length
bounds the number of records, since every record consumes at least one
character). -/
def parseCsv (cs : List Char) : List (List (List Char)) :=
  parseCsvAux cs.length cs

/-- Parse a CSV string into string cells. -/
def parseCsvS (s : String) : List (List String) :=
  (parseCsv s.data).map (fun r => r.map (fun cell => String.mk cell))

/-! ## Handlers -/

/-- The file content handed to `send_file`: the bytes of the written CSV,
or the workbook `to_excel` serializes from the DataFrame (binary format
kept abstract, identified by its source frame). -/
inductive FileContent where
  | csv (text : String)
  | xlsx (df : DataFrame)
deriving Repr, DecidableEq

/-- What `send_file(file_path, mimetype=..., as_attachment=True,
download_name=...)` returns: a stream with a download filename and a MIME
type. -/
structure ExportArtifact where
  filename : String
  mimetype : String
  content : FileContent
deriving Repr, DecidableEq

/-- A handler response: a JSON object (ordered key/value fields, as
`jsonify` receives them) or a file attachment. -/
inductive HResp where
  | json (fields : List (String × JVal))
  | file (a : ExportArtifact)
deriving Repr, DecidableEq

/-- The `/query` handler: reads `user_input` from the form (raising on
absence), runs `generate_sql`, and answers `{"error": ...}` or
`{"sql_query": ...}`. -/
def query (llm : String → Except String String)
    (catalog : Except String (List (String × String × String)))
    (form : Form) : Except FrameworkError HResp := do
  let user_input ← requireField form "user_input"
  let r := generate_sql llm catalog user_input
  match r.2 with
  | some e => return .json [("error", .s e)]
  | none =>
      return .json [("sql_query", match r.1 with | some t => .s t | none => .null)]

/-- The `/execute` handler: reads `sql_query` from the form (raising on
absence), runs `execute_query`, and answers `{"error": ...}` or
`{"results": ...}`. -/
def execute (db : String → Except String DataFrame) (form : Form) :
    Except FrameworkError HResp := do
  let sql_query ← requireField form "sql_query"
  let r := execute_query db sql_query
  match r.2 with
  | some e => return .json [("error", .s e)]
  | none =>
      return .json [("results", match r.1 with | some t => .table t | none => .null)]

/-- The spreadsheet MIME type used by `download`. -/
def xlsxMime : String :=
  "application/vnd.openxmlformats-officedocument.spreadsheetml.sheet"

/-- The `/download` handler: reads `sql_query` and `file_type` (raising on
absence), runs `execute_query`, answers `{"error": ...}` on failure, and
otherwise rebuilds a DataFrame from `results['data']` and serializes it as
CSV when `file_type == "csv"` and as an xlsx workbook for every other
value, returning the file with its fixed name and MIME type. -/
def download (db : String → Except String DataFrame) (form : Form) :
    Except FrameworkError HResp := do
  let _sql_query ← requireField form "sql_query"
  let file_type ← requireField form "file_type"
  let r := execute_query db _sql_query
  match r.2 with
  | some e => return .json [("error", .s e)]
  | none =>
      let recs := match r.1 with | some t => t.data | none => []
      let df := DataFrame.ofRecords recs
      if file_type = "csv" then
        return .file ⟨"query_results.csv", "text/csv", .csv df.toCsv⟩
      else
        return .file ⟨"query_results.xlsx", xlsxMime, .xlsx df⟩

/-- The `/schema_info` handler: fetches the schema mapping and returns
`{"database": PG_DATABASE, "tables": [...]}` where each table entry keeps
its grouped column-descriptor list; the configured database name is the
`dbName` parameter (read from the environment at startup). -/
def schema_info (dbName : String)
    (catalog : Except String (List (String × String × String))) :
    List (String × JVal) :=
  let tables := get_table_schemas catalog
  [("database", .s dbName), ("tables", .tableList tables)]

/-! ## Validity of a tabular result, and concrete inputs for witnesses -/

/-- A well-formed `TabularResult`: distinct column names, and every row
binds exactly the columns in order (the spec's rows as "mapping from
column name to a scalar value"). -/
def TabularResult.validRT (t : TabularResult) : Prop :=
  t.columns.Nodup ∧ ∀ r ∈ t.data, r.map Prod.fst = t.columns

instance (t : TabularResult) : Decidable t.validRT := by
  unfold TabularResult.validRT
  infer_instance

/-- A driver oracle knowing only `SELECT 1 AS x`. -/
def dbSelectOne : String → Except String DataFrame := fun sql =>
  if sql = "SELECT 1 AS x" then .ok ⟨["x"], [[Value.int 1]]⟩
  else .error "relation does not exist"

/-- A driver oracle that always fails with a syntax error, as the driver
does for `SELEKT 1`. -/
def dbSyntaxError : String → Except String DataFrame := fun _ =>
  .error ("syntax error at or near " ++ "SELEKT")

/-- A driver oracle returning a two-column result with a null cell. -/
def dbTwoCols : String → Except String DataFrame := fun _ =>
  .ok ⟨["a", "b"], [[Value.int 1, Value.null], [Value.str "x,y", Value.bool true]]⟩

/-- A driver oracle returning one column and zero rows. -/
def dbZeroRows : String → Except String DataFrame := fun _ =>
  .ok ⟨["x"], []⟩

/-- A translation oracle that always succeeds. -/
def llmOk : String → Except String String := fun _ => .ok "SELECT * FROM customers"

/-- A translation oracle that always fails. -/
def llmFail : String → Except String String := fun _ => .error "quota exceeded"

/-- The catalog rows of the spec's example database
`customers(id int, name text)`, `orders(id int, customer_id int)`. -/
def demoCatalogRows : List (String × String × String) :=
  [("customers", "id", "int"), ("customers", "name", "text"),
   ("orders", "id", "int"), ("orders", "customer_id", "int")]

/-- A zero-row tabular result over one column. -/
def tEmptyRows : TabularResult := ⟨["x"], []⟩

/-- A small tabular result exercising quoting, booleans and nulls. -/
def tSample : TabularResult :=
  ⟨["a", "b"],
   [[("a", Value.int 1), ("b", Value.null)],
    [("a", Value.str "x,y"), ("b", Value.bool true)]]⟩

/-! ## Lemmas about the schema grouping loop -/

theorem lookup_insertCol_self (acc : List (String × List String)) (t c : String) :
    (insertCol acc t c).lookup t = some (((acc.lookup t).getD []) ++ [c]) := by
  induction acc with
  | nil => simp [insertCol]
  | cons p rest ih =>
      obtain ⟨t', cs⟩ := p
      by_cases h : t' = t
      · subst h
        simp [insertCol, List.lookup]
      · have hb : (t == t') = false := beq_eq_false_iff_ne.mpr (Ne.symm h)
        simp [insertCol, h, List.lookup, hb, ih]

theorem lookup_insertCol_ne (acc : List (String × List String)) (t c t' : String)
    (h : t' ≠ t) : (insertCol acc t c).lookup t' = acc.lookup t' := by
  have hb : (t' == t) = false := beq_eq_false_iff_ne.mpr h
  induction acc with
  | nil => simp [insertCol, List.lookup, hb]
  | cons p rest ih =>
      obtain ⟨t0, cs⟩ := p
      by_cases h0 : t0 = t
      · subst h0
        simp [insertCol, List.lookup, hb]
      · by_cases h1 : t' = t0
        · subst h1
          simp [insertCol, h0, List.lookup]
        · have hb1 : (t' == t0) = false := beq_eq_false_iff_ne.mpr h1
          simp [insertCol, h0, List.lookup, hb1, ih]

theorem lookup_groupRows_aux (rows : List (String × String × String))
    (acc : List (String × List String)) (t : String) :
    ((rows.foldl (fun a r => insertCol a r.1 (r.2.1 ++ " (" ++ r.2.2 ++ ")")) acc).lookup t).getD [] =
      ((acc.lookup t).getD []) ++
        ((rows.filter (fun r => r.1 == t)).map (fun r => r.2.1 ++ " (" ++ r.2.2 ++ ")")) := by
  induction rows generalizing acc with
  | nil => simp
  | cons r rest ih =>
      obtain ⟨t0, c0, d0⟩ := r
      by_cases h : t0 = t
      · subst h
        simp only [List.foldl_cons, List.filter_cons, beq_self_eq_true, if_pos, List.map_cons]
        rw [ih]
        simp [lookup_insertCol_self]
      · simp only [List.foldl_cons, List.filter_cons]
        rw [ih]
        have hbe : (t0 == t) = false := by simp [beq_iff_eq, h]
        simp [hbe, lookup_insertCol_ne _ _ _ _ (Ne.symm h)]

/-! ## Lemmas: CSV cell round trip -/

theorem parseQuoted_escQ : ∀ (s rest : List Char), rest.head? ≠ some '"' →
    parseQuoted (escQ s ++ '"' :: rest) = (s, rest) := by
  intro s
  induction s with
  | nil =>
      intro rest hrest
      cases rest with
      | nil => simp [escQ, parseQuoted]
      | cons c2 r2 =>
          have hc2 : ¬c2 = '"' := by
            intro h
            exact hrest (by simp [h])
          simp [escQ, parseQuoted, hc2]
  | cons c s' ih =>
      intro rest hrest
      by_cases h : c = '"'
      · subst h
        simp only [escQ, if_pos rfl, List.cons_append]
        rw [parseQuoted.eq_def]
        simp [ih rest hrest]
      · simp only [escQ, if_neg h, List.cons_append]
        rw [parseQuoted.eq_def]
        simp [h, ih rest hrest]

theorem parseUnquoted_clean : ∀ (s rest : List Char),
    (∀ c ∈ s, ¬(c = ',' ∨ c = '\n')) →
    (rest = [] ∨ rest.head? = some ',' ∨ rest.head? = some '\n') →
    parseUnquoted (s ++ rest) = (s, rest) := by
  intro s
  induction s with
  | nil =>
      intro rest _ hrest
      simp only [List.nil_append]
      rcases hrest with h | h | h
      · simp [h, parseUnquoted]
      · cases rest with
        | nil => simp at h
        | cons c r =>
            simp only [List.head?_cons, Option.some.injEq] at h
            subst h
            simp [parseUnquoted]
      · cases rest with
        | nil => simp at h
        | cons c r =>
            simp only [List.head?_cons, Option.some.injEq] at h
            subst h
            simp [parseUnquoted]
  | cons c s' ih =>
      intro rest hs hrest
      have hc := hs c (by simp)
      simp only [List.cons_append]
      rw [parseUnquoted.eq_def]
      simp only [if_neg hc]
      rw [ih rest (fun x hx => hs x (by simp [hx])) hrest]

theorem parseFieldCh_render : ∀ (s rest : List Char),
    (rest = [] ∨ rest.head? = some ',' ∨ rest.head? = some '\n') →
    parseFieldCh (renderFieldCh s ++ rest) = (s, rest) := by
  intro s rest hrest
  by_cases hq : needsQuoteCh s = true
  · have hshape : renderFieldCh s ++ rest = '"' :: (escQ s ++ '"' :: rest) := by
      simp [renderFieldCh, hq, List.append_assoc]
    rw [hshape]
    have hhead : rest.head? ≠ some '"' := by
      rcases hrest with h | h | h <;> rw [h] <;> simp
    simp only [parseFieldCh, if_true]
    exact parseQuoted_escQ s rest hhead
  · have hclean : ∀ c ∈ s, ¬(c = ',' ∨ c = '"' ∨ c = '\n' ∨ c = '\r') := by
      intro c hc
      have := List.any_eq_false.mp (Bool.not_eq_true _ ▸ hq) c hc
      intro habs
      rcases habs with h | h | h | h <;> subst h <;> simp at this
    have hrender : renderFieldCh s = s := by simp [renderFieldCh, hq]
    rw [hrender]
    cases s with
    | nil =>
        simp only [List.nil_append]
        rcases hrest with h | h | h
        · simp [h, parseFieldCh]
        · cases rest with
          | nil => simp at h
          | cons c r =>
              simp only [List.head?_cons, Option.some.injEq] at h
              subst h
              simp [parseFieldCh, parseUnquoted]
        · cases rest with
          | nil => simp at h
          | cons c r =>
              simp only [List.head?_cons, Option.some.injEq] at h
              subst h
              simp [parseFieldCh, parseUnquoted]
    | cons c s' =>
        have hcq : ¬c = '"' := fun h => (hclean c (by simp)) (by simp [h])
        simp only [List.cons_append, parseFieldCh, if_neg hcq]
        rw [show (c :: (s' ++ rest)) = ((c :: s') ++ rest) by simp]
        refine parseUnquoted_clean (c :: s') rest ?_ hrest
        intro x hx habs
        rcases habs with h | h <;> exact (hclean x hx) (by simp [h])

/-! ## Lemmas: CSV record and file round trip -/

theorem csvLineCh_length : ∀ cells : List (List Char),
    cells.length ≤ (csvLineCh cells).length + 1 := by
  intro cells
  induction cells with
  | nil => simp [csvLineCh]
  | cons c cs ih =>
      cases cs with
      | nil => simp [csvLineCh]
      | cons c2 cs2 =>
          simp only [csvLineCh, List.length_append, List.length_cons] at ih ⊢
          omega

theorem parseRecordAux_line : ∀ (cells : List (List Char)) (rest : List Char) (fuel : Nat),
    cells ≠ [] → cells.length ≤ fuel →
    parseRecordAux fuel (csvLineCh cells ++ '\n' :: rest) = (cells, rest) := by
  intro cells
  induction cells with
  | nil => intro rest fuel hne _; exact absurd rfl hne
  | cons c cs ih =>
      intro rest fuel _ hfuel
      cases fuel with
      | zero => simp at hfuel
      | succ f =>
          cases cs with
          | nil =>
              have hfield := parseFieldCh_render c ('\n' :: rest) (by simp)
              simp only [csvLineCh, parseRecordAux, hfield]
          | cons c2 cs2 =>
              have hshape : csvLineCh (c :: c2 :: cs2) ++ '\n' :: rest =
                  renderFieldCh c ++ ',' :: (csvLineCh (c2 :: cs2) ++ '\n' :: rest) := by
                simp [csvLineCh, List.append_assoc]
              have hfield := parseFieldCh_render c
                (',' :: (csvLineCh (c2 :: cs2) ++ '\n' :: rest)) (by simp)
              have hrec := ih rest f (by simp) (by simpa using Nat.le_of_succ_le_succ hfuel)
              rw [hshape]
              simp only [parseRecordAux, hfield, hrec]

theorem writeRowsCh_length : ∀ rows : List (List (List Char)),
    rows.length ≤ (writeRowsCh rows).length := by
  intro rows
  induction rows with
  | nil => simp [writeRowsCh]
  | cons r rs ih =>
      simp only [writeRowsCh, List.length_append, List.length_cons, List.length_append] at ih ⊢
      omega

theorem parseCsvAux_cons (fuel : Nat) (cs : List Char) (h : cs ≠ []) :
    parseCsvAux (fuel + 1) cs =
      (parseRecord cs).1 :: parseCsvAux fuel (parseRecord cs).2 := by
  cases cs with
  | nil => exact absurd rfl h
  | cons c cs' => rfl

theorem parseCsvAux_writeRows : ∀ (rows : List (List (List Char))) (fuel : Nat),
    (∀ r ∈ rows, r ≠ []) → rows.length ≤ fuel →
    parseCsvAux fuel (writeRowsCh rows) = rows := by
  intro rows
  induction rows with
  | nil =>
      intro fuel _ _
      cases fuel <;> simp [writeRowsCh, parseCsvAux]
  | cons r rs ih =>
      intro fuel hne hfuel
      cases fuel with
      | zero => simp at hfuel
      | succ f =>
          have hshape : writeRowsCh (r :: rs) = csvLineCh r ++ '\n' :: writeRowsCh rs := by
            simp [writeRowsCh, List.append_assoc]
          have hnonnil : csvLineCh r ++ '\n' :: writeRowsCh rs ≠ [] := by
            intro habs
            have := congrArg List.length habs
            simp at this
          have hlen : r.length ≤ (csvLineCh r ++ '\n' :: writeRowsCh rs).length := by
            have := csvLineCh_length r
            simp only [List.length_append, List.length_cons]
            omega
          have hrec : parseRecord (csvLineCh r ++ '\n' :: writeRowsCh rs) =
              (r, writeRowsCh rs) := by
            unfold parseRecord
            exact parseRecordAux_line r (writeRowsCh rs) _ (hne r (by simp)) hlen
          rw [hshape, parseCsvAux_cons f _ hnonnil, hrec]
          simp only
          rw [ih f (fun x hx => hne x (by simp [hx])) (by simpa using Nat.le_of_succ_le_succ hfuel)]

/-! ## Lemmas: rebuilding the DataFrame from records -/

theorem addKeys_all_new : ∀ (ks acc : List String), ks.Nodup → (∀ k ∈ ks, k ∉ acc) →
    addKeys acc ks = acc ++ ks := by
  intro ks
  induction ks with
  | nil => intro acc _ _; simp [addKeys]
  | cons k ks' ih =>
      intro acc hnd hnew
      have hk : k ∉ acc := hnew k (by simp)
      have hins : insKey acc k = acc ++ [k] := by
        simp [insKey, hk]
      simp only [addKeys, List.foldl_cons]
      have : ks'.foldl insKey (insKey acc k) = (acc ++ [k]) ++ ks' := by
        rw [hins]
        refine ih (acc ++ [k]) hnd.of_cons ?_
        intro x hx
        simp only [List.mem_append, List.mem_singleton]
        rintro (h | h)
        · exact hnew x (by simp [hx]) h
        · exact (List.nodup_cons.mp hnd).1 (h ▸ hx)
      rw [this]
      simp

theorem addKeys_all_seen : ∀ (ks acc : List String), (∀ k ∈ ks, k ∈ acc) →
    addKeys acc ks = acc := by
  intro ks
  induction ks with
  | nil => intro acc _; simp [addKeys]
  | cons k ks' ih =>
      intro acc hseen
      have hk : k ∈ acc := hseen k (by simp)
      simp only [addKeys, List.foldl_cons]
      have hins : insKey acc k = acc := by
        simp [insKey, hk]
      rw [hins]
      exact ih acc (fun x hx => hseen x (by simp [hx]))

theorem foldl_addKeys_seen : ∀ (recs : List (List (String × Value))) (acc : List String),
    (∀ r ∈ recs, ∀ k ∈ r.map Prod.fst, k ∈ acc) →
    recs.foldl (fun a r => addKeys a (r.map Prod.fst)) acc = acc := by
  intro recs
  induction recs with
  | nil => intro acc _; simp
  | cons r1 rs ih =>
      intro acc hseen
      simp only [List.foldl_cons]
      rw [addKeys_all_seen _ _ (hseen r1 (by simp))]
      exact ih acc (fun r hr k hk => hseen r (by simp [hr]) k hk)

theorem recordKeys_const : ∀ (recs : List (List (String × Value))) (cols : List String),
    cols.Nodup → (∀ r ∈ recs, r.map Prod.fst = cols) → recs ≠ [] →
    recordKeys recs = cols := by
  intro recs cols hnd hall hne
  cases recs with
  | nil => exact absurd rfl hne
  | cons r0 rest =>
      have h0 : addKeys [] (r0.map Prod.fst) = cols := by
        rw [hall r0 (by simp)]
        simpa using addKeys_all_new cols [] hnd (by simp)
      simp only [recordKeys, List.foldl_cons]
      rw [h0]
      refine foldl_addKeys_seen rest cols ?_
      intro r hr k hk
      rw [hall r (by simp [hr])] at hk
      exact hk

theorem lookup_row : ∀ (r : List (String × Value)), (r.map Prod.fst).Nodup →
    (r.map Prod.fst).map (fun c => (r.lookup c).getD Value.null) = r.map Prod.snd := by
  intro r
  induction r with
  | nil => intro _; simp
  | cons p tl ih =>
      intro hnd
      obtain ⟨k, v⟩ := p
      simp only [List.map_cons] at hnd ⊢
      have hk : k ∉ tl.map Prod.fst := (List.nodup_cons.mp hnd).1
      have hhead : ((((k, v) :: tl).lookup k).getD Value.null) = v := by
        simp [List.lookup]
      have htail : (tl.map Prod.fst).map (fun c => ((((k, v) :: tl).lookup c).getD Value.null)) =
          (tl.map Prod.fst).map (fun c => ((tl.lookup c).getD Value.null)) := by
        refine List.map_congr_left ?_
        intro c hc
        have hck : (c == k) = false := beq_eq_false_iff_ne.mpr (fun h => hk (h ▸ hc))
        simp [List.lookup, hck]
      rw [hhead, htail, ih (List.nodup_cons.mp hnd).2]

theorem ofRecords_valid (t : TabularResult) (hv : t.validRT) (hne : t.data ≠ []) :
    DataFrame.ofRecords t.data =
      ⟨t.columns, t.data.map (fun r => r.map Prod.snd)⟩ := by
  obtain ⟨hnd, hall⟩ := hv
  have hkeys : recordKeys t.data = t.columns := recordKeys_const t.data t.columns hnd hall hne
  unfold DataFrame.ofRecords
  rw [hkeys]
  refine congrArg _ ?_
  refine List.map_congr_left ?_
  intro r hr
  have hcols : r.map Prod.fst = t.columns := hall r hr
  calc t.columns.map (fun c => (r.lookup c).getD Value.null)
      = (r.map Prod.fst).map (fun c => (r.lookup c).getD Value.null) := by rw [hcols]
    _ = r.map Prod.snd := lookup_row r (hcols ▸ hnd)

/-! ## Claim theorems -/

/-- C2 (amended): for every valid tabular result with at least one row and
at least one column, the CSV artifact of the download path (rebuild the
frame from the records, then serialize) starts with a header row equal to
the columns and parses back to the same columns, the same row count and
the same cell values in their natural text form, null rendered as the
empty cell. (The zero-row case fails because the frame is rebuilt from
the records alone, dropping the column list; a CSV also cannot carry zero
columns.) -/
theorem csv_roundtrip_amended (t : TabularResult)
    (hv : t.validRT) (hrows : t.data ≠ []) (hcols : t.columns ≠ []) :
    parseCsvS ((DataFrame.ofRecords t.data).toCsv) =
      t.columns :: t.data.map (fun r => r.map (fun p => p.2.text)) := by
  rw [ofRecords_valid t hv hrows]
  have hmk : ∀ s : String, String.mk s.data = s := fun _ => rfl
  have hparse : parseCsv ((DataFrame.toCsv
      ⟨t.columns, t.data.map (fun r => r.map Prod.snd)⟩).data) =
      (t.columns.map String.data) ::
        t.data.map (fun r => r.map (fun p => (p.2.text).data)) := by
    have hrw : (DataFrame.toCsv ⟨t.columns, t.data.map (fun r => r.map Prod.snd)⟩).data =
        writeRowsCh ((t.columns.map String.data) ::
          t.data.map (fun r => r.map (fun p => (p.2.text).data))) := by
      unfold DataFrame.toCsv
      simp only [List.map_map, Function.comp_def]
    rw [hrw]
    unfold parseCsv
    refine parseCsvAux_writeRows _ _ ?_ (writeRowsCh_length _)
    intro r hr
    simp only [List.mem_cons] at hr
    rcases hr with h | h
    · subst h
      simpa using hcols
    · obtain ⟨r0, hr0, rfl⟩ := List.mem_map.mp h
      intro habs
      have hr0nil : r0 = [] := List.map_eq_nil_iff.mp habs
      subst hr0nil
      have hcol0 := hv.2 [] hr0
      simp only [List.map_nil] at hcol0
      exact hcols hcol0.symm
  unfold parseCsvS
  rw [hparse]
  simp only [List.map_cons, List.map_map, Function.comp_def]
  congr 1
  · show List.map id t.columns = t.columns
    exact List.map_id t.columns

/-- C2 counterexample: for the valid zero-row result over column `x`, the
csv branch of `/download` writes a file whose header row is not `["x"]`
(the rebuilt frame has no columns), so the claimed round trip fails as
stated for zero-row results. -/
theorem csv_roundtrip_zero_rows_counterexample :
    tEmptyRows.validRT ∧ tEmptyRows.columns = ["x"] ∧ tEmptyRows.data = [] ∧
    execute_query dbZeroRows "SELECT x FROM t" = (some tEmptyRows, none) ∧
    download dbZeroRows [("sql_query", "SELECT x FROM t"), ("file_type", "csv")] =
      .ok (.file ⟨"query_results.csv", "text/csv",
        .csv (DataFrame.ofRecords tEmptyRows.data).toCsv⟩) ∧
    parseCsvS ((DataFrame.ofRecords tEmptyRows.data).toCsv) ≠
      tEmptyRows.columns :: tEmptyRows.data.map (fun r => r.map (fun p => p.2.text)) := by
  refine ⟨by decide, rfl, rfl, by rfl, by rfl, by decide⟩

/-- Witness for the amended C2 at a concrete two-column result with a
comma-carrying string, a boolean and a null. -/
theorem csv_roundtrip_amended_witness :
    tSample.validRT ∧
    parseCsvS ((DataFrame.ofRecords tSample.data).toCsv) =
      tSample.columns :: tSample.data.map (fun r => r.map (fun p => p.2.text)) :=
  ⟨by decide, csv_roundtrip_amended tSample (by decide) (by decide) (by decide)⟩

/-- C1: every successful execution yields the tabular structure
`{columns, data}` with `columns` the frame's column list and `data` the
per-row mappings; in particular a driver result for `SELECT 1 AS x` of one
`x` column and the single value `1` comes back as
`{columns: ["x"], data: [{"x": 1}]}`. -/
theorem execute_query_success_tabular
    (db : String → Except String DataFrame) (sql : String) (df : DataFrame)
    (h : db sql = .ok df) :
    execute_query db sql = (some ⟨df.columns, df.toRecords⟩, none) ∧
    (db "SELECT 1 AS x" = .ok ⟨["x"], [[Value.int 1]]⟩ →
      execute_query db "SELECT 1 AS x" =
        (some ⟨["x"], [[("x", Value.int 1)]]⟩, none)) := by
  constructor
  · simp [execute_query, h]
  · intro h2
    simp [execute_query, h2, DataFrame.toRecords]

/-- Witness for C1 at the concrete oracle `dbSelectOne`. -/
theorem execute_query_success_tabular_witness :
    execute_query dbSelectOne "SELECT 1 AS x" =
      (some ⟨["x"], [[("x", Value.int 1)]]⟩, none) :=
  (execute_query_success_tabular dbSelectOne "SELECT 1 AS x" ⟨["x"], [[Value.int 1]]⟩
    (by rfl)).2 (by rfl)

/-- C3: the `/query` response is the tagged union: on translation success
it is exactly `{"sql_query": text}`, on failure exactly `{"error": msg}`,
and the two keys are never populated together. -/
theorem query_tagged_union
    (llm : String → Except String String)
    (catalog : Except String (List (String × String × String)))
    (form : Form) (q : String) (fields : List (String × JVal))
    (hq : form.lookup "user_input" = some q)
    (hr : query llm catalog form = .ok (.json fields)) :
    (fields =
      match llm (promptFor (schemaTextOf (get_table_schemas catalog)) q) with
      | .ok t => [("sql_query", JVal.s t)]
      | .error e => [("error", JVal.s ("Error generating SQL: " ++ e))]) ∧
    ¬((fields.lookup "sql_query").isSome ∧ (fields.lookup "error").isSome) := by
  unfold query requireField at hr
  rw [hq] at hr
  simp only [generate_sql, bind, Except.bind] at hr
  cases hllm : llm (promptFor (schemaTextOf (get_table_schemas catalog)) q) with
  | ok t =>
      rw [hllm] at hr
      simp only [pure, Except.pure, Except.ok.injEq, HResp.json.injEq] at hr
      subst hr
      simp [List.lookup]
  | error e =>
      rw [hllm] at hr
      simp only [pure, Except.pure, Except.ok.injEq, HResp.json.injEq] at hr
      subst hr
      simp [List.lookup]

/-- Witness for C3 with a succeeding translation oracle. -/
theorem query_tagged_union_witness :
    ([("sql_query", JVal.s "SELECT * FROM customers")] =
      match llmOk (promptFor (schemaTextOf (get_table_schemas (.ok demoCatalogRows))) "show all customers") with
      | .ok t => [("sql_query", JVal.s t)]
      | .error e => [("error", JVal.s ("Error generating SQL: " ++ e))]) ∧
    ¬((([("sql_query", JVal.s "SELECT * FROM customers")] : List (String × JVal)).lookup "sql_query").isSome ∧
      (([("sql_query", JVal.s "SELECT * FROM customers")] : List (String × JVal)).lookup "error").isSome) :=
  query_tagged_union llmOk (.ok demoCatalogRows)
    [("user_input", "show all customers")] "show all customers"
    [("sql_query", JVal.s "SELECT * FROM customers")] (by decide) (by rfl)

/-- C4: every catalog failure is swallowed: `get_table_schemas` returns
the empty mapping, and `/schema_info` still answers the success JSON with
the configured database name and an empty table list, with no error
field. -/
theorem schema_failure_degrades_empty (dbName e : String) :
    get_table_schemas (.error e) = [] ∧
    schema_info dbName (.error e) =
      [("database", .s dbName), ("tables", .tableList [])] ∧
    (schema_info dbName (.error e)).lookup "error" = none := by
  refine ⟨rfl, rfl, ?_⟩
  simp [schema_info, get_table_schemas, List.lookup]

/-- C5: when the driver fails, `execute_query` returns no tabular result
at all, only the error string carrying the driver's message, and the
`/execute` response is the single `error` field with no `results` field. -/
theorem execute_query_error_no_results
    (db : String → Except String DataFrame) (form : Form) (sql m : String)
    (hs : form.lookup "sql_query" = some sql)
    (he : db sql = .error m) :
    execute_query db sql = (none, some ("Error executing query: " ++ m)) ∧
    execute db form = .ok (.json [("error", JVal.s ("Error executing query: " ++ m))]) ∧
    ∀ fields, execute db form = .ok (.json fields) → fields.lookup "results" = none := by
  have h1 : execute_query db sql = (none, some ("Error executing query: " ++ m)) := by
    simp [execute_query, he]
  have h2 : execute db form = .ok (.json [("error", JVal.s ("Error executing query: " ++ m))]) := by
    unfold execute requireField
    rw [hs]
    simp only [bind, Except.bind]
    simp [h1, pure, Except.pure]
  refine ⟨h1, h2, ?_⟩
  intro fields hf
  rw [h2] at hf
  simp at hf
  subst hf
  simp [List.lookup]

/-- Witness for C5 at the failing oracle `dbSyntaxError`. -/
theorem execute_query_error_no_results_witness :
    execute_query dbSyntaxError "SELEKT 1" =
      (none, some ("Error executing query: " ++ ("syntax error at or near " ++ "SELEKT"))) ∧
    execute dbSyntaxError [("sql_query", "SELEKT 1")] =
      .ok (.json [("error", JVal.s ("Error executing query: " ++ ("syntax error at or near " ++ "SELEKT")))]) ∧
    ∀ fields, execute dbSyntaxError [("sql_query", "SELEKT 1")] = .ok (.json fields) →
      fields.lookup "results" = none :=
  execute_query_error_no_results dbSyntaxError [("sql_query", "SELEKT 1")]
    "SELEKT 1" ("syntax error at or near " ++ "SELEKT") (by decide) (by rfl)

/-- C6: prompt construction is a pure total function: the prompt is the
fixed template around the schema block and the verbatim question, the
schema block is the `Table name: col (type), ...` lines joined by
newlines (empty for an empty schema), the question occurs verbatim in the
prompt, and so does the instruction demanding a bare query without
markdown. -/
theorem prompt_construction (user_query : String) (si : List (String × List String)) :
    promptFor (schemaTextOf si) user_query =
      promptPre ++ schemaTextOf si ++ promptMid ++ user_query ++ promptPost ∧
    schemaTextOf si =
      String.intercalate "\n"
        (si.map (fun p => "Table " ++ p.1 ++ ": " ++ String.intercalate ", " p.2)) ∧
    schemaTextOf [] = "" ∧
    user_query.data <:+: (promptFor (schemaTextOf si) user_query).data ∧
    ("Return as plaintext, query only, with no markdown formatting.").data <:+:
      (promptFor (schemaTextOf si) user_query).data := by
  refine ⟨by simp [promptFor], rfl, rfl, ?_, ?_⟩
  · refine ⟨(promptPre ++ schemaTextOf si ++ promptMid).data, promptPost.data, ?_⟩
    simp [promptFor, String.data_append]
  · have h1 : ("Return as plaintext, query only, with no markdown formatting.").data <:+:
        promptPost.data := by decide
    have h2 : promptPost.data <:+: (promptFor (schemaTextOf si) user_query).data := by
      refine ⟨(promptPre ++ schemaTextOf si ++ promptMid ++ user_query).data, [], ?_⟩
      simp [promptFor, String.data_append]
    exact h1.trans h2

/-- C7: on a successful `/download`, the artifact's filename and MIME type
are fixed by the kind — `query_results.csv` with `text/csv`, else
`query_results.xlsx` with the spreadsheet MIME type — and the handler only
reads the tabular result (the embedding is pure, so the input result is
never mutated). -/
theorem download_filename_mime
    (db : String → Except String DataFrame) (form : Form) (sql ft : String) (df : DataFrame)
    (hs : form.lookup "sql_query" = some sql)
    (hf : form.lookup "file_type" = some ft)
    (hdb : db sql = .ok df) :
    download db form = .ok (.file
      { filename := if ft = "csv" then "query_results.csv" else "query_results.xlsx",
        mimetype := if ft = "csv" then "text/csv" else xlsxMime,
        content := if ft = "csv" then .csv (DataFrame.ofRecords df.toRecords).toCsv
                   else .xlsx (DataFrame.ofRecords df.toRecords) }) := by
  unfold download requireField
  rw [hs, hf]
  simp only [bind, Except.bind]
  simp only [execute_query, hdb]
  by_cases h : ft = "csv" <;> simp [h, pure, Except.pure]

/-- Witness for C7 on the csv branch at a concrete oracle. -/
theorem download_filename_mime_witness :
    download dbTwoCols [("sql_query", "q"), ("file_type", "csv")] = .ok (.file
      { filename := if "csv" = "csv" then "query_results.csv" else "query_results.xlsx",
        mimetype := if "csv" = "csv" then "text/csv" else xlsxMime,
        content := if "csv" = "csv" then
            .csv (DataFrame.ofRecords (DataFrame.toRecords ⟨["a", "b"],
              [[Value.int 1, Value.null], [Value.str "x,y", Value.bool true]]⟩)).toCsv
          else .xlsx (DataFrame.ofRecords (DataFrame.toRecords ⟨["a", "b"],
              [[Value.int 1, Value.null], [Value.str "x,y", Value.bool true]]⟩)) }) :=
  download_filename_mime dbTwoCols [("sql_query", "q"), ("file_type", "csv")] "q" "csv"
    ⟨["a", "b"], [[Value.int 1, Value.null], [Value.str "x,y", Value.bool true]]⟩
    (by decide) (by decide) (by rfl)

/-- C9: a missing required form field surfaces as the framework-level
`KeyError` of the `request.form[...]` lookup — never as the structured
JSON error payload — on all three POST handlers (for `/download` the
fields are read in source order, `sql_query` then `file_type`). -/
theorem missing_field_framework_error
    (llm : String → Except String String)
    (catalog : Except String (List (String × String × String)))
    (db : String → Except String DataFrame) (form : Form) :
    (form.lookup "user_input" = none →
      query llm catalog form = .error (.keyError "user_input")) ∧
    (form.lookup "sql_query" = none →
      execute db form = .error (.keyError "sql_query") ∧
      download db form = .error (.keyError "sql_query")) ∧
    (∀ sql, form.lookup "sql_query" = some sql → form.lookup "file_type" = none →
      download db form = .error (.keyError "file_type")) := by
  refine ⟨?_, ?_, ?_⟩
  · intro h
    unfold query requireField
    rw [h]
    rfl
  · intro h
    constructor
    · unfold execute requireField
      rw [h]
      rfl
    · unfold download requireField
      rw [h]
      rfl
  · intro sql hs hf
    unfold download requireField
    rw [hs, hf]
    rfl

/-- Witness for C9 at concrete forms missing each required field. -/
theorem missing_field_framework_error_witness :
    query llmOk (.ok demoCatalogRows) [] = .error (.keyError "user_input") ∧
    execute dbSelectOne [] = .error (.keyError "sql_query") ∧
    download dbSelectOne [] = .error (.keyError "sql_query") ∧
    download dbSelectOne [("sql_query", "SELECT 1 AS x")] = .error (.keyError "file_type") := by
  have h := missing_field_framework_error llmOk (.ok demoCatalogRows) dbSelectOne []
  have h2 := missing_field_framework_error llmOk (.ok demoCatalogRows) dbSelectOne
    [("sql_query", "SELECT 1 AS x")]
  exact ⟨h.1 rfl, (h.2.1 rfl).1, (h.2.1 rfl).2,
    h2.2.2 "SELECT 1 AS x" (by decide) (by decide)⟩

/-- C10: on a successful `/download`, every `file_type` other than exactly
`"csv"` falls into the `else` branch and produces the xlsx artifact with
the spreadsheet MIME type, and no `file_type` value is ever rejected with
a framework error. -/
theorem download_default_xlsx
    (db : String → Except String DataFrame) (form : Form) (sql ft : String) (df : DataFrame)
    (hs : form.lookup "sql_query" = some sql)
    (hf : form.lookup "file_type" = some ft)
    (hdb : db sql = .ok df) :
    (ft ≠ "csv" →
      download db form =
        .ok (.file ⟨"query_results.xlsx", xlsxMime, .xlsx (DataFrame.ofRecords df.toRecords)⟩)) ∧
    ∀ e, download db form ≠ .error e := by
  have hrun : download db form =
      (if ft = "csv" then
        .ok (.file ⟨"query_results.csv", "text/csv", .csv (DataFrame.ofRecords df.toRecords).toCsv⟩)
      else
        .ok (.file ⟨"query_results.xlsx", xlsxMime, .xlsx (DataFrame.ofRecords df.toRecords)⟩)) := by
    unfold download requireField
    rw [hs, hf]
    simp only [bind, Except.bind]
    simp only [execute_query, hdb]
    by_cases h : ft = "csv" <;> simp [h, pure, Except.pure]
  constructor
  · intro h
    rw [hrun, if_neg h]
  · intro e
    rw [hrun]
    by_cases h : ft = "csv" <;> simp [h]

/-- Witness for C10 with `file_type = "excel"`. -/
theorem download_default_xlsx_witness :
    ("excel" ≠ "csv" →
      download dbZeroRows [("sql_query", "q"), ("file_type", "excel")] =
        .ok (.file ⟨"query_results.xlsx", xlsxMime,
          .xlsx (DataFrame.ofRecords (DataFrame.toRecords ⟨["x"], []⟩))⟩)) ∧
    ∀ e, download dbZeroRows [("sql_query", "q"), ("file_type", "excel")] ≠ .error e :=
  download_default_xlsx dbZeroRows [("sql_query", "q"), ("file_type", "excel")]
    "q" "excel" ⟨["x"], []⟩ (by decide) (by decide) (by rfl)

/-- C8: `/schema_info` preserves, for every table, the catalog iteration
order of its column descriptors; on the spec's example catalog the
`customers` entry is exactly `["id (int)", "name (text)"]`. -/
theorem schema_info_column_order :
    (∀ (rows : List (String × String × String)) (t : String),
      ((get_table_schemas (.ok rows)).lookup t).getD [] =
        (rows.filter (fun r => r.1 == t)).map (fun r => r.2.1 ++ " (" ++ r.2.2 ++ ")")) ∧
    schema_info "my_local_db" (.ok demoCatalogRows) =
      [("database", .s "my_local_db"),
       ("tables", .tableList
         [("customers", ["id (int)", "name (text)"]),
          ("orders", ["id (int)", "customer_id (int)"])])] := by
  constructor
  · intro rows t
    have := lookup_groupRows_aux rows [] t
    simpa [get_table_schemas, groupRows] using this
  · decide

end AgentPG
